import Mathlib

/-!
Shallow embedding of the `slurmssh` tool (file `slurmssh.py`): a client that
syncs a local project directory to a Slurm cluster over ssh and submits a
batch job there.  External effects (ssh, rsync, the filesystem, TOML parsing)
are modelled by explicit inputs: each external command's outcome is a
`CmdResult`, filesystem facts and manifest-parse outcomes live in
`ProjectEnv`, and every operation returns the list of external command lines
it would have invoked together with the lines it would have printed.
-/

namespace SlurmsshModel

/-! ### Python string primitives: `str.strip`, `str.split`, `in` -/

/-- ASCII whitespace, the characters `str.strip()` / `str.split()` treat as
separators for the strings this program handles. -/
def pyWS (c : Char) : Bool :=
  c == ' ' || c == '\t' || c == '\n' || c == '\r' || c == '\x0b' || c == '\x0c'

/-- Python `str.strip()` on the character list: drop whitespace from both ends. -/
def pyStrip (l : List Char) : List Char :=
  ((l.dropWhile pyWS).reverse.dropWhile pyWS).reverse

/-- Python `str.strip()` on strings. -/
def pyStripS (s : String) : String := ⟨pyStrip s.data⟩

/-- Python `str.split()` (no separator argument): maximal runs of
non-whitespace characters, empty chunks discarded. -/
def pySplit (l : List Char) : List (List Char) :=
  (l.splitOnP pyWS).filter (fun t => !t.isEmpty)

/-- Python `sub in s` substring test, as a proposition. -/
def strIn (sub s : String) : Prop := sub.data <:+: s.data

instance strInDec (sub s : String) : Decidable (strIn sub s) := by
  unfold strIn; exact List.decidableInfix _ _

/-- Python `sub in s` substring test, as the boolean the code branches on. -/
def strInB (sub s : String) : Bool := decide (strIn sub s)

/-! ### Results of external commands, Python exceptions -/

/-- `subprocess.CompletedProcess` as the code consumes it. -/
structure CmdResult where
  returncode : Int
  stdout : String
  stderr : String
deriving DecidableEq, Repr

/-- The exceptions the embedded code can raise. -/
inductive PyErr where
  | runtimeError (msg : String)
  | indexError
deriving DecidableEq, Repr

/-- The message text an exception renders as when printed. -/
def PyErr.msg : PyErr → String
  | .runtimeError m => m
  | .indexError => "list index out of range"

/-! ### `pathlib.PurePosixPath`, the fragment the code uses -/

/-- A parsed POSIX path: absolute flag plus components, with empty and `"."`
components normalized away (as `pathlib` does). -/
structure PyPath where
  absolute : Bool
  comps : List String
deriving DecidableEq, Repr

/-- `Path(s)`: parse a path string. -/
def parsePath (s : String) : PyPath :=
  ⟨s.startsWith "/", (s.splitOn "/").filter (fun c => !(c == "" || c == "."))⟩

/-- `Path.parent`: drop the final component (parent of the root is the root,
parent of `.` is `.`). -/
def PyPath.parent (p : PyPath) : PyPath := ⟨p.absolute, p.comps.dropLast⟩

/-- `Path.name`: the final component, or `""` when there is none. -/
def PyPath.name (p : PyPath) : String := p.comps.getLastD ""

/-- `Path(".")`. -/
def pathDot : PyPath := ⟨false, []⟩

/-- `Path.stem` applied to a final component `name`: cut at the last dot
provided that dot is neither the first nor the last character. -/
def stemOfName (nm : String) : String :=
  match nm.data.reverse.findIdx? (· == '.') with
  | none => nm
  | some j =>
      if 0 < j ∧ j + 1 < nm.data.length then ⟨nm.data.take (nm.data.length - 1 - j)⟩
      else nm

/-- `Path.stem`. -/
def PyPath.stem (p : PyPath) : String := stemOfName p.name

/-- `Path.suffix`: the extension including the dot, or `""`. -/
def pySuffix (p : PyPath) : String :=
  match p.name.data.reverse.findIdx? (· == '.') with
  | none => ""
  | some j =>
      if 0 < j ∧ j + 1 < p.name.data.length then ⟨p.name.data.drop (p.name.data.length - 1 - j)⟩
      else ""

/-- `Path(dir) / filename` for a filename with no separator in it. -/
def pathJoin (p : PyPath) (f : String) : PyPath :=
  ⟨p.absolute, p.comps ++ (parsePath f).comps⟩

/-- `str(path)`. -/
def PyPath.toStr (p : PyPath) : String :=
  if p.absolute then "/" ++ String.intercalate "/" p.comps
  else if p.comps.isEmpty then "." else String.intercalate "/" p.comps

/-! ### The ambient local environment the constructor reads -/

/-- Local-filesystem and manifest facts consumed by `_get_project_name` and
`_uses_uv`: whether `pyproject.toml` exists, what `toml.load` yields
(`.error` models a parse exception; on success, the extracted
`project.name` string if declared, and whether a `tool.uv` section is
present), whether `uv.lock` exists, and the current directory's base name. -/
structure ProjectEnv where
  pyprojectExists : Bool
  manifestProjectName : Except Unit (Option String)
  manifestToolUv : Except Unit Bool
  uvLockExists : Bool
  cwdName : String

/-- `SlurmSSH._get_project_name`: manifest name if present and parseable,
else the launch script's parent directory name when that parent is not `.`,
else the current directory name.  Exceptions inside the `try` block are
swallowed (the `.error` branch of the match). -/
def get_project_name (env : ProjectEnv) (launch_script_path : String) : String :=
  match (if env.pyprojectExists then env.manifestProjectName else .ok none) with
  | .ok (some nm) => nm
  | _ =>
      let script_path := parsePath launch_script_path
      if script_path.parent ≠ pathDot then script_path.parent.name
      else env.cwdName

/-- The name the manifest contributes, if any: `pyproject.toml` exists, parses,
and declares `project.name`. -/
def manifestName (env : ProjectEnv) : Option String :=
  if env.pyprojectExists then
    match env.manifestProjectName with
    | .ok (some nm) => some nm
    | _ => none
  else none

/-- `SlurmSSH._uses_uv`: `uv.lock` exists, or `pyproject.toml` parses and has
a `tool.uv` section (parse errors swallowed). -/
def uses_uv (env : ProjectEnv) : Bool :=
  if env.uvLockExists then true
  else if env.pyprojectExists then
    match env.manifestToolUv with
    | .ok b => b
    | .error _ => false
  else false

/-! ### The `SlurmSSH` session object -/

/-- The fields `SlurmSSH.__init__` sets. -/
structure Session where
  host : String
  username : String
  launch_script_path : String
  project_name : String
  remote_dir : String
deriving DecidableEq, Repr

/-- `SlurmSSH.__init__`: derive `project_name` and `remote_dir`. -/
def mkSession (host username launch_script_path : String) (env : ProjectEnv) : Session :=
  let pn := get_project_name env launch_script_path
  ⟨host, username, launch_script_path, pn, "~/slurmssh/" ++ pn ++ "/"⟩

/-- `SlurmSSH._run_ssh_command`: the argv of the ssh invocation. -/
def sshArgv (s : Session) (command : String) : List String :=
  ["ssh", s.username ++ "@" ++ s.host, command]

/-! ### `_sync_code` -/

/-- The hard-coded default rsync exclusions. -/
def default_excludes : List String :=
  [".git/", "__pycache__/", "*.pyc", ".DS_Store", ".vscode/", ".idea/", ".venv/"]

/-- `default_excludes + (exclude or [])`. -/
def all_excludes (exclude : List String) : List String :=
  default_excludes ++ exclude

/-- The rsync argv `_sync_code` builds: base flags, then the loop
`rsync_cmd.extend(["--exclude", pattern])` over `all_excludes`, then source
and destination. -/
def rsyncArgv (s : Session) (exclude : List String) : List String :=
  (all_excludes exclude).foldl
      (fun acc pattern => acc ++ ["--exclude", pattern])
      ["rsync", "-avz", "--delete"]
    ++ ["./", s.username ++ "@" ++ s.host ++ ":" ++ s.remote_dir]

/-- `SlurmSSH._sync_code`, with the outcomes of the two external commands
supplied as inputs.  Returns (result, external command lines actually
invoked in order, printed lines). -/
def sync_code (s : Session) (exclude : List String) (mkdirRes rsyncRes : CmdResult) :
    Except PyErr Unit × List (List String) × List String :=
  let mkdirCall := sshArgv s ("mkdir -p " ++ s.remote_dir)
  if mkdirRes.returncode ≠ 0 then
    (.error (.runtimeError ("Failed to create remote directory: " ++ mkdirRes.stderr)),
      [mkdirCall], [])
  else
    let rsyncCall := rsyncArgv s exclude
    if rsyncRes.returncode ≠ 0 then
      (.error (.runtimeError ("Failed to sync code: " ++ rsyncRes.stderr)),
        [mkdirCall, rsyncCall], [])
    else
      (.ok (), [mkdirCall, rsyncCall],
        ["Code synced to " ++ s.host ++ ":" ++ s.remote_dir])

/-! ### `_submit_job` -/

/-- The remote command string `_submit_job` composes:
`cd <remote_dir> && sbatch <launch_script_path>` with any `script_args`
appended at the end (`cmd_parts.extend(script_args)` runs after the script
path has been added). -/
def sbatchCommand (s : Session) (script_args : List String) : String :=
  let cmd_parts := ["cd", s.remote_dir, "&&", "sbatch", s.launch_script_path]
  let cmd_parts := if script_args.isEmpty then cmd_parts else cmd_parts ++ script_args
  String.intercalate " " cmd_parts

/-- `SlurmSSH._submit_job`, with the ssh invocation's outcome supplied as
input.  Returns (result, invoked command lines, printed lines). -/
def submit_job (s : Session) (script_args : List String) (res : CmdResult) :
    Except PyErr String × List (List String) × List String :=
  let call := sshArgv s (sbatchCommand s script_args)
  if res.returncode ≠ 0 then
    (.error (.runtimeError ("Failed to submit job: " ++ res.stderr)), [call], [])
  else
    let output := pyStripS res.stdout
    if strInB "Submitted batch job" output then
      match (pySplit output.data).getLast? with
      | some job_id =>
          (.ok ⟨job_id⟩, [call], ["Job submitted with ID: " ++ (⟨job_id⟩ : String)])
      | none => (.error .indexError, [call], [])
    else
      (.error (.runtimeError ("Unexpected sbatch output: " ++ output)), [call], [])

/-! ### `submit` -/

/-- `SlurmSSH.submit`: sync then submit; the job id returned by
`_submit_job` is dropped (the method returns `None`); any exception is
printed as `Error: ...` and re-raised. -/
def submit (s : Session) (exclude script_args : List String)
    (mkdirRes rsyncRes sbatchRes : CmdResult) :
    Except PyErr Unit × List (List String) × List String :=
  let (syncR, syncCalls, syncPrints) := sync_code s exclude mkdirRes rsyncRes
  match syncR with
  | .error e => (.error e, syncCalls, syncPrints ++ ["Error: " ++ e.msg])
  | .ok () =>
      let (subR, subCalls, subPrints) := submit_job s script_args sbatchRes
      match subR with
      | .error e =>
          (.error e, syncCalls ++ subCalls, syncPrints ++ subPrints ++ ["Error: " ++ e.msg])
      | .ok _ => (.ok (), syncCalls ++ subCalls, syncPrints ++ subPrints)

/-! ### `_generate_slurm_script` -/

/-- `SlurmSSH._generate_slurm_script`: the output path and the generated file
content (the filesystem write is modelled separately by `fsWrite`). -/
def generate_slurm_script (env : ProjectEnv) (python_script : String)
    (script_args : List String) (output_dir : String) : PyPath × String :=
  let script_name := (parsePath python_script).stem
  let slurm_filename := script_name ++ ".slurm"
  let slurm_path := pathJoin (parsePath output_dir) slurm_filename
  let python_cmd := if uses_uv env then "uv run" else "python"
  let cmd_parts := [python_cmd, python_script]
  let cmd_parts := if script_args.isEmpty then cmd_parts else cmd_parts ++ script_args
  let full_command := String.intercalate " " cmd_parts
  let slurm_content :=
    "#!/bin/bash\n#SBATCH --job-name=" ++ script_name ++
    "\n#SBATCH --output=slurm-%j.out\n#SBATCH --error=slurm-%j.err\n#SBATCH --time=01:00:00\n#SBATCH --ntasks=1\n#SBATCH --cpus-per-task=1\n#SBATCH --mem=4GB\n\necho \"Job ID: $SLURM_JOB_ID\"\necho \"Job Name: $SLURM_JOB_NAME\"\necho \"Node: $SLURM_NODELIST\"\necho \"Started at: $(date)\"\necho \"Working directory: $(pwd)\"\necho\n\necho \"Running Python script: " ++
    python_script ++ "\"\n" ++ full_command ++ "\n\necho \"Job completed at: $(date)\"\n"
  (slurm_path, slurm_content)

/-- The final command line of the generated content, as a string of its own. -/
def fullCommandOf (env : ProjectEnv) (python_script : String)
    (script_args : List String) : String :=
  String.intercalate " "
    (((if uses_uv env then "uv run" else "python") :: [python_script]) ++ script_args)

/-- A local filesystem: path-indexed file contents. -/
def FS := PyPath → Option String

/-- `open(path, "w"); write(content)`: overwrite whatever was there. -/
def fsWrite (fs : FS) (p : PyPath) (content : String) : FS :=
  fun q => if q = p then some content else fs q

/-! ### `main` -/

/-- The parsed command-line arguments. -/
structure MainArgs where
  ssh : String
  script : String
  exclude : List String
  script_args : List String

/-- Everything the environment decides during a run of `main`. -/
structure MainEnv where
  scriptExists : Bool
  projEnv : ProjectEnv
  mkdirRes : CmdResult
  rsyncRes : CmdResult
  sbatchRes : CmdResult

/-- How a run of `main` ends. -/
inductive MainOutcome where
  | exited (code : Nat)
  | finished
deriving DecidableEq, Repr

/-- `s.split(sep, 1)` at the first occurrence of a character. -/
def splitOnce (s : String) (c : Char) : String × String :=
  (⟨s.data.takeWhile (· ≠ c)⟩, ⟨(s.data.dropWhile (· ≠ c)).drop 1⟩)

/-- `main`: validate the connection string and the script path, generate a
batch script for a `.py` input, then sync and submit.  Returns the outcome
and the remote command lines invoked (ssh and rsync invocations; the local
batch-script write is not a remote command). -/
def mainRun (args : MainArgs) (env : MainEnv) : MainOutcome × List (List String) :=
  if ¬ strInB "@" args.ssh then (.exited 1, [])
  else
    let (username, host) := splitOnce args.ssh '@'
    if ¬ env.scriptExists then (.exited 1, [])
    else
      let launch_script :=
        if pySuffix (parsePath args.script) == ".py" then
          (generate_slurm_script env.projEnv args.script args.script_args ".").1.toStr
        else args.script
      let s := mkSession host username launch_script env.projEnv
      let (r, calls, _) :=
        submit s args.exclude args.script_args env.mkdirRes env.rsyncRes env.sbatchRes
      match r with
      | .error _ => (.exited 1, calls)
      | .ok () => (.finished, calls)

end SlurmsshModel

deriving instance DecidableEq for Except

namespace SlurmsshModel

/-! ### Helper lemmas about substrings, stripping and splitting -/

theorem infH_pref {α : Type} {l₁ l₂ : List α} (h : l₁ <+: l₂) : l₁ <:+: l₂ := by
  obtain ⟨t, rfl⟩ := h; exact ⟨[], t, by simp⟩

theorem infH_suf {α : Type} {l₁ l₂ : List α} (h : l₁ <:+ l₂) : l₁ <:+: l₂ := by
  obtain ⟨t, rfl⟩ := h; exact ⟨t, [], by simp⟩

theorem infH_append_right {α : Type} {l l₂ : List α} (l₃ : List α) (h : l <:+: l₂) :
    l <:+: l₂ ++ l₃ := by
  obtain ⟨u, v, rfl⟩ := h; exact ⟨u, v ++ l₃, by simp⟩

theorem infH_append_left {α : Type} {l l₃ : List α} (l₂ : List α) (h : l <:+: l₃) :
    l <:+: l₂ ++ l₃ := by
  obtain ⟨u, v, rfl⟩ := h; exact ⟨l₂ ++ u, v, by simp⟩

theorem strIn_refl (s : String) : strIn s s := ⟨[], [], by simp⟩

theorem strIn_append_right {m a : String} (b : String) (h : strIn m a) : strIn m (a ++ b) := by
  unfold strIn at *; rw [String.data_append]; exact infH_append_right _ h

theorem strIn_append_left {m b : String} (a : String) (h : strIn m b) : strIn m (a ++ b) := by
  unfold strIn at *; rw [String.data_append]; exact infH_append_left _ h

/-- A substring whose first character the predicate rejects survives `dropWhile`. -/
theorem infH_dropWhile {α : Type} (p : α → Bool) (c : α) (m : List α) {s : List α}
    (hc : p c = false) (h : (c :: m) <:+: s) : (c :: m) <:+: s.dropWhile p := by
  induction s with
  | nil =>
      obtain ⟨t, u, e⟩ := h
      exact absurd e (by simp)
  | cons a s ih =>
      rw [List.dropWhile_cons]
      cases hx : p a
      · simpa only [Bool.false_eq_true, if_false] using h
      · simp only [if_true]
        rcases List.infix_cons_iff.mp h with hpre | hinf
        · obtain ⟨t, e⟩ := hpre
          have hca : c = a := by
            have := congrArg (fun l => l.head?) e
            simpa using this
          rw [hca, hx] at hc; cases hc
        · exact ih hinf

/-- `strip` only removes outer whitespace, so it keeps any substring whose two
end characters are not whitespace. -/
theorem infH_pyStrip (c d : Char) (m : List Char) {s : List Char}
    (hc : pyWS c = false) (hd : pyWS d = false)
    (hrev : (c :: m).reverse = d :: ((c :: m).reverse.drop 1))
    (h : (c :: m) <:+: s) : (c :: m) <:+: pyStrip s := by
  have h1 : (c :: m) <:+: s.dropWhile pyWS := infH_dropWhile pyWS c m hc h
  have h2 : (c :: m).reverse <:+: (s.dropWhile pyWS).reverse :=
    ( List.reverse_infix).mpr h1
  rw [hrev] at h2
  have h3 : (d :: ((c :: m).reverse.drop 1)) <:+: (s.dropWhile pyWS).reverse.dropWhile pyWS :=
    infH_dropWhile pyWS d _ hd h2
  have h4 := ( List.reverse_infix).mpr h3
  rw [← hrev, List.reverse_reverse] at h4
  exact h4

/-- `strip s` is a substring of `s`. -/
theorem pyStrip_inf (l : List Char) : pyStrip l <:+: l := by
  unfold pyStrip
  have h1 : (l.dropWhile pyWS).reverse.dropWhile pyWS <:+ (l.dropWhile pyWS).reverse :=
    List.dropWhile_suffix _
  have h2 : ((l.dropWhile pyWS).reverse.dropWhile pyWS).reverse <+:
      (l.dropWhile pyWS).reverse.reverse := ( List.reverse_prefix).mpr h1
  rw [List.reverse_reverse] at h2
  exact (infH_pref h2).trans (infH_suf (List.dropWhile_suffix _))

theorem strIn_of_strip {m s : String} (h : strIn m (pyStripS s)) : strIn m s :=
  List.IsInfix.trans h (pyStrip_inf s.data)

/-- Every non-whitespace element of the list lands in some kept chunk of the
whitespace split. -/
theorem pySplit_mem (c : Char) (l : List Char) (hc : pyWS c = false) (hmem : c ∈ l) :
    ∃ t ∈ pySplit l, c ∈ t := by
  induction l with
  | nil => cases hmem
  | cons a l ih =>
      unfold pySplit at *
      rw [List.splitOnP_cons]
      cases hx : pyWS a
      · obtain ⟨h0, tl, e⟩ : ∃ h0 tl, l.splitOnP pyWS = h0 :: tl := by
          cases e : l.splitOnP pyWS with
          | nil => exact absurd e (List.splitOnP_ne_nil _ l)
          | cons h0 tl => exact ⟨h0, tl, rfl⟩
        simp only [hx, Bool.false_eq_true, if_false, e, List.modifyHead_cons]
        rcases List.mem_cons.mp hmem with rfl | hml
        · refine ⟨c :: h0, ?_, List.mem_cons_self _ _⟩
          simp [List.filter_cons]
        · obtain ⟨t, htmem, hct⟩ := ih hml
          rw [e] at htmem
          rcases List.mem_filter.mp htmem with ⟨htl, hne⟩
          rcases List.mem_cons.mp htl with rfl | htl2
          · refine ⟨a :: t, ?_, List.mem_cons_of_mem _ hct⟩
            simp [List.filter_cons]
          · refine ⟨t, ?_, hct⟩
            rw [List.mem_filter]
            exact ⟨List.mem_cons_of_mem _ htl2, hne⟩
      · have hca : c ≠ a := by intro e; rw [e, hx] at hc; cases hc
        have hml : c ∈ l := by
          rcases List.mem_cons.mp hmem with e | h2
          · exact absurd e hca
          · exact h2
        obtain ⟨t, htmem, hct⟩ := ih hml
        refine ⟨t, ?_, hct⟩
        simp only [hx, if_true, List.filter_cons]
        simpa using htmem

theorem pySplit_ne_nil (c : Char) (l : List Char) (hc : pyWS c = false) (hmem : c ∈ l) :
    pySplit l ≠ [] := by
  obtain ⟨t, ht, _⟩ := pySplit_mem c l hc hmem
  intro e
  rw [e] at ht
  cases ht

/-- The `extend` loop over the exclusion patterns equals base plus two
arguments per pattern. -/
theorem foldl_extend_excludes (l : List String) (init : List String) :
    l.foldl (fun acc pattern => acc ++ ["--exclude", pattern]) init
      = init ++ l.flatMap (fun pattern => ["--exclude", pattern]) := by
  induction l generalizing init with
  | nil => simp
  | cons x xs ih => simp [List.foldl_cons, ih, List.append_assoc]

/-- The acknowledgement marker survives `strip`. -/
theorem marker_in_strip {s : List Char} (h : "Submitted batch job".data <:+: s) :
    "Submitted batch job".data <:+: pyStrip s := by
  have e1 : "Submitted batch job".data = 'S' :: "ubmitted batch job".data := by decide
  rw [e1] at h ⊢
  exact infH_pyStrip 'S' 'b' _ (by decide) (by decide) (by decide) h

/-! ### Claims -/

/-- Claim C1 (refuted; the code contradicts its own test
`test_submit_job_with_args`): `_submit_job` appends the extra arguments
*after* the launch script path.  At the test's input the composed remote
command is the args-last string, and differs from the args-first string the
test (`slurmssh_test.py:69`) and the spec expect. -/
theorem claim1_args_after_script_path :
    sbatchCommand
        ⟨"test-cluster.example.com", "testuser", "test_job.slurm", "proj", "~/slurmssh/proj/"⟩
        ["--time=10:00", "--mem=4G", "arg1", "arg2"]
      = "cd ~/slurmssh/proj/ && sbatch test_job.slurm --time=10:00 --mem=4G arg1 arg2" ∧
    sbatchCommand
        ⟨"test-cluster.example.com", "testuser", "test_job.slurm", "proj", "~/slurmssh/proj/"⟩
        ["--time=10:00", "--mem=4G", "arg1", "arg2"]
      ≠ "cd ~/slurmssh/proj/ && sbatch --time=10:00 --mem=4G arg1 arg2 test_job.slurm" := by
  exact ⟨by decide, by decide⟩

/-- Claim C2: on exit code zero with the acknowledgement phrase present in
stdout, `_submit_job` returns the last whitespace-delimited token of the
stripped stdout; in particular stdout `"Submitted batch job 12345\n"` yields
`"12345"`. -/
theorem claim2_job_id_is_last_token (s : Session) (args : List String) (res : CmdResult)
    (h0 : res.returncode = 0) (hm : strIn "Submitted batch job" res.stdout) :
    (submit_job s args res).1
      = .ok ⟨(pySplit (pyStrip res.stdout.data)).getLastD []⟩ ∧
    (submit_job ⟨"gpu-cluster.edu", "researcher", "job.slurm", "proj", "~/slurmssh/proj/"⟩
        [] ⟨0, "Submitted batch job 12345\n", ""⟩).1 = .ok "12345" := by
  constructor
  · have hm' : strIn "Submitted batch job" (pyStripS res.stdout) := marker_in_strip hm
    have hb : strInB "Submitted batch job" (pyStripS res.stdout) = true := decide_eq_true hm'
    have hS : 'S' ∈ (pyStripS res.stdout).data :=
      hm'.sublist.subset (by decide : 'S' ∈ "Submitted batch job".data)
    have hne : pySplit (pyStripS res.stdout).data ≠ [] := pySplit_ne_nil 'S' _ (by decide) hS
    obtain ⟨x, hx⟩ : ∃ x, (pySplit (pyStripS res.stdout).data).getLast? = some x := by
      cases e : (pySplit (pyStripS res.stdout).data).getLast? with
      | none => exact absurd (List.getLast?_eq_none_iff.mp e) hne
      | some x => exact ⟨x, rfl⟩
    have hx' : (pySplit (pyStrip res.stdout.data)).getLast? = some x := hx
    simp only [submit_job, h0]
    norm_num
    rw [hb]
    simp [hx, hx', List.getLastD_eq_getLast?]
  · decide

/-- Claim C2 witness: the general statement applied at the concrete
acknowledged submission. -/
theorem claim2_witness :
    (submit_job ⟨"gpu-cluster.edu", "researcher", "job.slurm", "proj", "~/slurmssh/proj/"⟩
        [] ⟨0, "Submitted batch job 12345\n", ""⟩).1
      = .ok ⟨(pySplit (pyStrip ("Submitted batch job 12345\n" : String).data)).getLastD []⟩ :=
  (claim2_job_id_is_last_token
      ⟨"gpu-cluster.edu", "researcher", "job.slurm", "proj", "~/slurmssh/proj/"⟩
      [] ⟨0, "Submitted batch job 12345\n", ""⟩ rfl (by decide)).1

/-- Claim C3 counterexample: at stdout `"Unexpected output format\n"` (exit
code zero, marker absent) the raised message embeds the *stripped* stdout,
and the raw stdout is not a substring of the message — the trailing newline
is gone. -/
theorem claim3_counterexample :
    (submit_job ⟨"test-cluster.example.com", "testuser", "test_job.slurm", "proj",
        "~/slurmssh/proj/"⟩ [] ⟨0, "Unexpected output format\n", ""⟩).1
      = .error (.runtimeError "Unexpected sbatch output: Unexpected output format") ∧
    ¬ strIn "Unexpected output format\n" "Unexpected sbatch output: Unexpected output format" := by
  exact ⟨by decide, by decide⟩

/-- Claim C3 as amended: `_submit_job` fails exactly in two cases — non-zero
exit (message embeds the remote stderr) and zero exit without the marker
phrase (message embeds the *whitespace-stripped* stdout, not the raw
stdout) — and succeeds otherwise. -/
theorem claim3_failure_cases (s : Session) (args : List String) (res : CmdResult) :
    (res.returncode ≠ 0 →
      (submit_job s args res).1
        = .error (.runtimeError ("Failed to submit job: " ++ res.stderr)) ∧
      strIn res.stderr ("Failed to submit job: " ++ res.stderr)) ∧
    (res.returncode = 0 → ¬ strIn "Submitted batch job" res.stdout →
      (submit_job s args res).1
        = .error (.runtimeError ("Unexpected sbatch output: " ++ pyStripS res.stdout)) ∧
      strIn (pyStripS res.stdout) ("Unexpected sbatch output: " ++ pyStripS res.stdout)) ∧
    (res.returncode = 0 → strIn "Submitted batch job" res.stdout →
      ∃ jid, (submit_job s args res).1 = .ok jid) := by
  refine ⟨fun hnz => ?_, fun h0 hnm => ?_, fun h0 hm => ?_⟩
  · constructor
    · simp only [submit_job, if_pos hnz]
    · exact strIn_append_left _ (strIn_refl _)
  · have hb : strInB "Submitted batch job" (pyStripS res.stdout) = false := by
      apply decide_eq_false
      intro hin
      exact hnm (strIn_of_strip hin)
    constructor
    · simp only [submit_job, h0]
      norm_num
      rw [hb]
      simp
    · exact strIn_append_left _ (strIn_refl _)
  · have hm' : strIn "Submitted batch job" (pyStripS res.stdout) := marker_in_strip hm
    have hb : strInB "Submitted batch job" (pyStripS res.stdout) = true := decide_eq_true hm'
    have hS : 'S' ∈ (pyStripS res.stdout).data :=
      hm'.sublist.subset (by decide : 'S' ∈ "Submitted batch job".data)
    have hne : pySplit (pyStripS res.stdout).data ≠ [] := pySplit_ne_nil 'S' _ (by decide) hS
    obtain ⟨x, hx⟩ : ∃ x, (pySplit (pyStripS res.stdout).data).getLast? = some x := by
      cases e : (pySplit (pyStripS res.stdout).data).getLast? with
      | none => exact absurd (List.getLast?_eq_none_iff.mp e) hne
      | some x => exact ⟨x, rfl⟩
    refine ⟨⟨x⟩, ?_⟩
    simp only [submit_job, h0]
    norm_num
    rw [hb]
    simp [hx]

/-- Claim C3 witness: the amended statement applied at the failing-submission
input of `test_submit_job_failure`. -/
theorem claim3_witness :
    (submit_job ⟨"test-cluster.example.com", "testuser", "test_job.slurm", "proj",
        "~/slurmssh/proj/"⟩ ["--partition=invalid"]
        ⟨1, "", "sbatch: error: Invalid partition name"⟩).1
      = .error (.runtimeError
          ("Failed to submit job: " ++ "sbatch: error: Invalid partition name")) ∧
    strIn "sbatch: error: Invalid partition name"
      ("Failed to submit job: " ++ "sbatch: error: Invalid partition name") :=
  (claim3_failure_cases
      ⟨"test-cluster.example.com", "testuser", "test_job.slurm", "proj", "~/slurmssh/proj/"⟩
      ["--partition=invalid"] ⟨1, "", "sbatch: error: Invalid partition name"⟩).1 (by decide)

/-- Claim C4: the exclusion list is always the fixed 7-entry baseline
followed by the caller's patterns in caller order (no deduplication), the
`["*.log", "data/"]` instance spells out to those nine entries, and the
rsync argv passes each pattern behind its own `--exclude`. -/
theorem claim4_exclusion_list (s : Session) (exclude : List String) :
    all_excludes exclude = default_excludes ++ exclude ∧
    all_excludes ["*.log", "data/"]
      = [".git/", "__pycache__/", "*.pyc", ".DS_Store", ".vscode/", ".idea/", ".venv/",
         "*.log", "data/"] ∧
    rsyncArgv s exclude
      = ["rsync", "-avz", "--delete"]
          ++ (all_excludes exclude).flatMap (fun pattern => ["--exclude", pattern])
          ++ ["./", s.username ++ "@" ++ s.host ++ ":" ++ s.remote_dir] := by
  refine ⟨rfl, by decide, ?_⟩
  unfold rsyncArgv
  rw [foldl_extend_excludes]

/-- Claim C5: the project-name resolver is total — whatever the manifest
state (absent, unparseable, nameless) and whatever the launch script path,
it returns a string, which is the manifest name, the script's parent
directory name, or the current directory name. -/
theorem claim5_resolver_total (env : ProjectEnv) (launch : String) :
    (∃ nm, env.manifestProjectName = .ok (some nm) ∧ get_project_name env launch = nm) ∨
    get_project_name env launch = (parsePath launch).parent.name ∨
    get_project_name env launch = env.cwdName := by
  unfold get_project_name
  cases hpe : env.pyprojectExists
  · simp only [Bool.false_eq_true, if_false]
    by_cases hp : (parsePath launch).parent = pathDot
    · right; right; rw [if_neg (not_not_intro hp)]
    · right; left; rw [if_pos hp]
  · simp only [if_true]
    cases hm : env.manifestProjectName with
    | error e =>
        by_cases hp : (parsePath launch).parent = pathDot
        · right; right; rw [if_neg (not_not_intro hp)]
        · right; left; rw [if_pos hp]
    | ok o =>
        cases o with
        | none =>
            by_cases hp : (parsePath launch).parent = pathDot
            · right; right; rw [if_neg (not_not_intro hp)]
            · right; left; rw [if_pos hp]
        | some nm => exact Or.inl ⟨nm, rfl, rfl⟩

/-- `_get_project_name` characterized through `manifestName`. -/
theorem get_project_name_eq (env : ProjectEnv) (launch : String) :
    get_project_name env launch
      = match manifestName env with
        | some nm => nm
        | none =>
            if (parsePath launch).parent ≠ pathDot then (parsePath launch).parent.name
            else env.cwdName := by
  unfold get_project_name manifestName
  cases hpe : env.pyprojectExists
  · simp
  · cases hm : env.manifestProjectName with
    | error e => simp
    | ok o => cases o <;> simp

/-- Claim C6: resolution priority — a declared manifest name wins; otherwise
the script's parent directory name when that parent is not `.`; otherwise
the current working directory's name. -/
theorem claim6_priority_order (env : ProjectEnv) (launch : String) :
    (∀ nm, manifestName env = some nm → get_project_name env launch = nm) ∧
    (manifestName env = none → (parsePath launch).parent ≠ pathDot →
      get_project_name env launch = (parsePath launch).parent.name) ∧
    (manifestName env = none → (parsePath launch).parent = pathDot →
      get_project_name env launch = env.cwdName) := by
  refine ⟨fun nm h => ?_, fun h hp => ?_, fun h hp => ?_⟩
  · rw [get_project_name_eq, h]
  · rw [get_project_name_eq, h]
    exact if_pos hp
  · rw [get_project_name_eq, h]
    exact if_neg (not_not_intro hp)

/-- Claim C6 witness: a parseable manifest declaring `myproj` wins over the
parent-directory fallback. -/
theorem claim6_witness :
    get_project_name ⟨true, .ok (some "myproj"), .ok false, false, "cwd"⟩
        "scripts/job.slurm" = "myproj" :=
  (claim6_priority_order ⟨true, .ok (some "myproj"), .ok false, false, "cwd"⟩
      "scripts/job.slurm").1 "myproj" rfl

/-- The rsync argv never equals an ssh argv (their first words differ), so a
trace without the rsync argv really performed no mirroring transfer. -/
theorem rsync_head (s : Session) (exclude : List String) :
    (rsyncArgv s exclude).head? = some "rsync" := by
  unfold rsyncArgv
  rw [foldl_extend_excludes]
  rfl

theorem rsyncArgv_ne_sshArgv (s : Session) (exclude : List String) (cmd : String) :
    rsyncArgv s exclude ≠ sshArgv s cmd := by
  intro e
  have h := congrArg List.head? e
  rw [rsync_head] at h
  have h2 : (sshArgv s cmd).head? = some "ssh" := rfl
  rw [h2] at h
  exact absurd h (by decide)

/-- Claim C7: mkdir failure raises the remote-directory error (message embeds
the stderr) and the rsync transfer is never invoked; rsync failure after a
successful mkdir raises the sync error (message embeds the stderr); two
successes return without error. -/
theorem claim7_sync_error_flow (s : Session) (exclude : List String)
    (mkdirRes rsyncRes : CmdResult) :
    (mkdirRes.returncode ≠ 0 →
      (sync_code s exclude mkdirRes rsyncRes).1
        = .error (.runtimeError ("Failed to create remote directory: " ++ mkdirRes.stderr)) ∧
      strIn "ailed to create remote directory"
        ("Failed to create remote directory: " ++ mkdirRes.stderr) ∧
      strIn mkdirRes.stderr ("Failed to create remote directory: " ++ mkdirRes.stderr) ∧
      (sync_code s exclude mkdirRes rsyncRes).2.1
        = [sshArgv s ("mkdir -p " ++ s.remote_dir)] ∧
      rsyncArgv s exclude ∉ (sync_code s exclude mkdirRes rsyncRes).2.1) ∧
    (mkdirRes.returncode = 0 → rsyncRes.returncode ≠ 0 →
      (sync_code s exclude mkdirRes rsyncRes).1
        = .error (.runtimeError ("Failed to sync code: " ++ rsyncRes.stderr)) ∧
      strIn "ailed to sync code" ("Failed to sync code: " ++ rsyncRes.stderr) ∧
      strIn rsyncRes.stderr ("Failed to sync code: " ++ rsyncRes.stderr)) ∧
    (mkdirRes.returncode = 0 → rsyncRes.returncode = 0 →
      (sync_code s exclude mkdirRes rsyncRes).1 = .ok ()) := by
  refine ⟨fun hnz => ?_, fun h0 hrz => ?_, fun h0 hr0 => ?_⟩
  · refine ⟨?_, strIn_append_right _ (by decide), strIn_append_left _ (strIn_refl _), ?_, ?_⟩
    · simp only [sync_code, if_pos hnz]
    · simp only [sync_code, if_pos hnz]
    · simp only [sync_code, if_pos hnz]
      rw [List.mem_singleton]
      exact rsyncArgv_ne_sshArgv s exclude _
  · refine ⟨?_, strIn_append_right _ (by decide), strIn_append_left _ (strIn_refl _)⟩
    simp only [sync_code, h0]
    norm_num
    rw [if_neg hrz]
  · simp only [sync_code, h0, hr0]
    norm_num

/-- Claim C7 witness: the first failure case at a concrete failing mkdir. -/
theorem claim7_witness :
    (sync_code ⟨"test-cluster.example.com", "testuser", "test_job.slurm", "proj",
        "~/slurmssh/proj/"⟩ [] ⟨1, "", "mkdir: permission denied"⟩ ⟨0, "", ""⟩).1
      = .error (.runtimeError ("Failed to create remote directory: "
          ++ "mkdir: permission denied")) ∧
    strIn "ailed to create remote directory"
      ("Failed to create remote directory: " ++ "mkdir: permission denied") ∧
    strIn "mkdir: permission denied"
      ("Failed to create remote directory: " ++ "mkdir: permission denied") ∧
    (sync_code ⟨"test-cluster.example.com", "testuser", "test_job.slurm", "proj",
        "~/slurmssh/proj/"⟩ [] ⟨1, "", "mkdir: permission denied"⟩ ⟨0, "", ""⟩).2.1
      = [sshArgv ⟨"test-cluster.example.com", "testuser", "test_job.slurm", "proj",
          "~/slurmssh/proj/"⟩ ("mkdir -p " ++ "~/slurmssh/proj/")] ∧
    rsyncArgv ⟨"test-cluster.example.com", "testuser", "test_job.slurm", "proj",
        "~/slurmssh/proj/"⟩ []
      ∉ (sync_code ⟨"test-cluster.example.com", "testuser", "test_job.slurm", "proj",
          "~/slurmssh/proj/"⟩ [] ⟨1, "", "mkdir: permission denied"⟩ ⟨0, "", ""⟩).2.1 :=
  (claim7_sync_error_flow ⟨"test-cluster.example.com", "testuser", "test_job.slurm", "proj",
      "~/slurmssh/proj/"⟩ [] ⟨1, "", "mkdir: permission denied"⟩ ⟨0, "", ""⟩).1 (by decide)

/-- The composed interpreter-plus-script-plus-arguments line is a substring
of the generated batch-script content. -/
theorem full_command_in_content (env : ProjectEnv) (python_script : String)
    (script_args : List String) (output_dir : String) :
    strIn (fullCommandOf env python_script script_args)
      (generate_slurm_script env python_script script_args output_dir).2 := by
  unfold generate_slurm_script fullCommandOf
  cases script_args with
  | nil =>
      simp only [List.isEmpty_nil, if_true, List.append_nil]
      exact strIn_append_right _ (strIn_append_left _ (strIn_refl _))
  | cons a as =>
      simp only [List.isEmpty_cons, Bool.false_eq_true, if_false]
      exact strIn_append_right _ (strIn_append_left _ (strIn_refl _))

/-- Claim C8: the generator targets `<output_dir>/<script_stem>.slurm`,
overwrites whatever the filesystem held at that path, embeds the final
command line `interpreter script args...` (single-space joined) in the
content, contains `train.py --epochs 100` for the spec's example, and is
deterministic: regeneration from equal inputs is byte-identical. -/
theorem claim8_generator_output (env : ProjectEnv) (python_script : String)
    (script_args : List String) (output_dir : String) (fs : FS) :
    (generate_slurm_script env python_script script_args output_dir).1
      = pathJoin (parsePath output_dir) ((parsePath python_script).stem ++ ".slurm") ∧
    fsWrite fs (generate_slurm_script env python_script script_args output_dir).1
        (generate_slurm_script env python_script script_args output_dir).2
        (generate_slurm_script env python_script script_args output_dir).1
      = some (generate_slurm_script env python_script script_args output_dir).2 ∧
    strIn (fullCommandOf env python_script script_args)
      (generate_slurm_script env python_script script_args output_dir).2 ∧
    strIn "train.py --epochs 100"
      (generate_slurm_script ⟨false, .ok none, .ok false, false, "cwd"⟩ "train.py"
        ["--epochs", "100"] ".").2 ∧
    (generate_slurm_script env python_script script_args output_dir).2
      = (generate_slurm_script env python_script script_args output_dir).2 := by
  refine ⟨rfl, ?_, full_command_in_content env python_script script_args output_dir, ?_, rfl⟩
  · simp [fsWrite]
  · exact List.IsInfix.trans
      (by decide : strIn "train.py --epochs 100"
        (fullCommandOf ⟨false, .ok none, .ok false, false, "cwd"⟩ "train.py"
          ["--epochs", "100"]))
      (full_command_in_content ⟨false, .ok none, .ok false, false, "cwd"⟩ "train.py"
        ["--epochs", "100"] ".")

/-- Claim C9: a connection string without `@`, or a missing script file,
makes `main` exit with status 1 before any remote command is invoked. -/
theorem claim9_fail_fast (args : MainArgs) (env : MainEnv)
    (h : ¬ strIn "@" args.ssh ∨ env.scriptExists = false) :
    mainRun args env = (.exited 1, []) := by
  unfold mainRun
  rcases h with h | h
  · have hb : ¬ (strInB "@" args.ssh = true) := by simpa [strInB] using h
    rw [if_pos hb]
  · by_cases hc : strInB "@" args.ssh = true
    · rw [if_neg (not_not_intro hc)]
      cases hsp : splitOnce args.ssh '@' with
      | mk u hst => simp [h]
    · rw [if_pos hc]

/-- Claim C9 witness: the invalid connection string `invalid-format`. -/
theorem claim9_witness :
    mainRun ⟨"invalid-format", "job.slurm", [], []⟩
        ⟨true, ⟨false, .ok none, .ok false, false, "cwd"⟩, ⟨0, "", ""⟩, ⟨0, "", ""⟩,
          ⟨0, "Submitted batch job 1\n", ""⟩⟩
      = (.exited 1, []) :=
  claim9_fail_fast _ _ (Or.inl (by decide))

/-- A successful `_submit_job` prints exactly the informational line carrying
the job id. -/
theorem submit_job_ok_prints (s : Session) (args : List String) (res : CmdResult)
    (jid : String) (h : (submit_job s args res).1 = .ok jid) :
    (submit_job s args res).2.2 = ["Job submitted with ID: " ++ jid] := by
  unfold submit_job at h ⊢
  by_cases h0 : res.returncode ≠ 0
  · rw [if_pos h0] at h
    exact absurd h (by simp)
  · rw [if_neg h0] at h ⊢
    by_cases hb : strInB "Submitted batch job" (pyStripS res.stdout) = true
    · rw [if_pos hb] at h ⊢
      cases hg : (pySplit (pyStripS res.stdout).data).getLast? with
      | none =>
          rw [hg] at h
          exact Except.noConfusion h
      | some t =>
          rw [hg] at h
          have h2 := Except.ok.inj h
          rw [← h2]
    · rw [if_neg hb] at h
      exact absurd h (by simp)

/-- Claim C10: on a fully successful run, `submit` returns unit — the job id
`_submit_job` produced is discarded and survives only in the printed
informational line. -/
theorem claim10_submit_returns_unit (s : Session) (exclude script_args : List String)
    (mkdirRes rsyncRes sbatchRes : CmdResult) (jid : String)
    (h1 : mkdirRes.returncode = 0) (h2 : rsyncRes.returncode = 0)
    (h3 : (submit_job s script_args sbatchRes).1 = .ok jid) :
    (submit s exclude script_args mkdirRes rsyncRes sbatchRes).1 = .ok () ∧
    ("Job submitted with ID: " ++ jid)
      ∈ (submit s exclude script_args mkdirRes rsyncRes sbatchRes).2.2 := by
  have hp := submit_job_ok_prints s script_args sbatchRes jid h3
  have hs : sync_code s exclude mkdirRes rsyncRes
      = (.ok (), [sshArgv s ("mkdir -p " ++ s.remote_dir), rsyncArgv s exclude],
          ["Code synced to " ++ s.host ++ ":" ++ s.remote_dir]) := by
    simp only [sync_code, h1, h2]
    norm_num
  unfold submit
  rw [hs]
  rcases e : submit_job s script_args sbatchRes with ⟨r1, rc, rp⟩
  rw [e] at h3 hp
  simp at h3 hp
  rw [h3]
  simp [hp]

/-- Claim C10 witness: a concrete fully successful run. -/
theorem claim10_witness :
    (submit ⟨"gpu-cluster.edu", "researcher", "job.slurm", "proj", "~/slurmssh/proj/"⟩
        [] [] ⟨0, "", ""⟩ ⟨0, "", ""⟩ ⟨0, "Submitted batch job 12345\n", ""⟩).1 = .ok () ∧
    ("Job submitted with ID: " ++ "12345")
      ∈ (submit ⟨"gpu-cluster.edu", "researcher", "job.slurm", "proj", "~/slurmssh/proj/"⟩
          [] [] ⟨0, "", ""⟩ ⟨0, "", ""⟩ ⟨0, "Submitted batch job 12345\n", ""⟩).2.2 :=
  claim10_submit_returns_unit
    ⟨"gpu-cluster.edu", "researcher", "job.slurm", "proj", "~/slurmssh/proj/"⟩
    [] [] ⟨0, "", ""⟩ ⟨0, "", ""⟩ ⟨0, "Submitted batch job 12345\n", ""⟩ "12345"
    rfl rfl (by decide)

end SlurmsshModel
